import Mathlib

/-!
Shallow embedding of `src/cash_flow_engine.py` (class `FinancialCalculator`):
an alias-resolution registry over financial indicators, a value store keyed
by canonical ids, and four cash-flow formulas.  Python strings are modelled
as `List Char`, Python dicts as association lists with last-write-wins
lookup, and numeric values as integers: the only arithmetic in the source is
addition and subtraction, and every concrete value in the properties below
is an integer, on which Python float arithmetic is exact.
-/

set_option maxRecDepth 8000

abbrev Str := List Char

/-- Convert a Lean string literal to the `List Char` model of Python strings. -/
def lc (s : String) : Str := s.data

/-- Model of Python `str.lower` on the characters that occur in this
repository: ASCII letters and the Cyrillic letters used by display names. -/
def pyLowerChar (c : Char) : Char :=
  if 'A' ≤ c ∧ c ≤ 'Z' then Char.ofNat (c.toNat + 32)
  else if c = 'Ё' then 'ё'
  else if 'А' ≤ c ∧ c ≤ 'Я' then Char.ofNat (c.toNat + 32)
  else c

/-- Model of Python `str.isspace` membership used by `str.strip` (ASCII
whitespace). -/
def isPySpace (c : Char) : Bool :=
  c == ' ' || c == '\t' || c == '\n' || c == '\r' || c == '\x0b' || c == '\x0c'

/-- Python `s.lower()`. -/
def pyLower (s : Str) : Str := s.map pyLowerChar

/-- Drop leading whitespace (Python `str.lstrip`). -/
def lstrip (s : Str) : Str := s.dropWhile isPySpace

/-- Drop trailing whitespace (Python `str.rstrip`). -/
def rstrip (s : Str) : Str := (s.reverse.dropWhile isPySpace).reverse

/-- Python `s.strip()`: drop leading and trailing whitespace. -/
def pyStrip (s : Str) : Str := rstrip (lstrip s)

/-- The normalisation `s.lower().strip()` applied by `resolve_name` and by
alias registration. -/
def pyNormalize (s : Str) : Str := pyStrip (pyLower s)

/-- A Python dict modelled as an association list: insertion prepends, so a
front-to-back search realises dict overwrite (last write wins). -/
abbrev Dict (α : Type) := List (Str × α)

def dinsert {α : Type} (m : Dict α) (k : Str) (v : α) : Dict α := (k, v) :: m

def dget {α : Type} (m : Dict α) (k : Str) : Option α :=
  (m.find? fun p => decide (p.1 = k)).map Prod.snd

/-- `class Indicator`: canonical id, display name, aliases lowered and
stripped at construction time (`cash_flow_engine.py` lines 3-12). -/
structure Indicator where
  id : Str
  display_name : Str
  aliases : List Str

def mkIndicator (id dn : Str) (als : List Str) : Indicator :=
  ⟨id, dn, als.map pyNormalize⟩

/-- The state of a `FinancialCalculator` object: the value store `data`,
the id-to-indicator `registry` and the alias-to-id `alias_map`. -/
structure FinancialCalculator where
  data : Dict ℤ
  registry : Dict Indicator
  alias_map : Dict Str

/-- The `ValueError("Unknown indicator name: ...")` raised by `set_value`;
it carries the original unresolved name. -/
inductive CalcError where
  | unknownIndicator : Str → CalcError
deriving DecidableEq

namespace FinancialCalculator

/-- The helper `reg` inside `_initialize_registry` (lines 27-36): records the
indicator and maps its lowered id, lowered display name and every normalised
alias to the canonical id. -/
def reg (c : FinancialCalculator) (id dn : String) (als : List String) :
    FinancialCalculator :=
  let i := lc id
  let ind := mkIndicator i (lc dn) (als.map lc)
  let m1 := dinsert c.alias_map (pyLower i) i
  let m2 := dinsert m1 (pyLower (lc dn)) i
  let m3 := ind.aliases.foldl (fun m a => dinsert m a i) m2
  { c with registry := dinsert c.registry i ind, alias_map := m3 }

/-- The fixed catalog registered by `_initialize_registry` (lines 38-105),
in source order: (id, display name, aliases). -/
def catalog : List (String × String × List String) :=
  [("OperationalCF", "Операционный денежный поток",
      ["delOperationalCF", "OCF", "delOCF", "Operational Cash Flow"]),
   ("InvestingCF", "Инвестиционный денежный поток",
      ["delInvestingCF", "ICF", "delICF", "Investing Cash Flow"]),
   ("FinancingCF", "Финансовый денежный поток",
      ["delFinancingCF", "FCF", "delFCF", "Financing Cash Flow"]),
   ("Cash", "Денежные средства",
      ["delCash", "C", "delC", "Cash"]),
   ("assets", "Активы",
      ["delAssets", "A", "delA", "Assets"]),
   ("liabilities", "Обязательства",
      ["delLiabilities", "L", "delL", "Liabilities"]),
   ("equity", "Собственный капитал",
      ["delEquity", "E", "delE", "Equity"]),
   ("retained_earnings", "Накопленная прибыль",
      ["delRetainedEarnings", "RE", "delRE", "Retained Earnings"]),
   ("current_assets", "Оборотные активы",
      ["delCurrentAssets", "CA", "delCA", "Current Assets"]),
   ("non_current_assets", "Внеоборотные активы",
      ["delNonCurrentAssets", "NCA", "delNCA", "Non-Current Assets"]),
   ("contributed_capital", "Акционерный капитал",
      ["delContributedCapital", "CC", "delCC", "Contributed Capital"]),
   ("other_equity", "Прочий собственный капитал",
      ["delOtherEquity", "OE", "delOE", "Other Equity", "other_equity"]),
   ("non-current liabilities", "Долгосрочные обязательства",
      ["delNonCurrentLiabilities", "NCL", "delNCL", "Non-Current Liabilities",
       "non-current_liabilities"]),
   ("net_income", "Чистая прибыль",
      ["delNetIncome", "NI", "Net Income", "net income"]),
   ("dividends", "Дивиденды",
      ["delDividends", "Div", "delDiv", "Dividends"]),
   ("net_accounts_receivable",
      "Дебиторская задолженность (за вычетом резерва по сомнительным долгам и прочих резервов)",
      ["delNetAccountsReceivable", "NetA/R", "delNetA/R",
       "Net Accounts Receivable", "net accounts receivable"]),
   ("inventory", "Товарно-материальные запасы",
      ["delInventory", "Inv", "delInv", "Inventory"]),
   ("other_current_assets", "Прочие оборотные активы",
      ["delOtherCurrentAssets", "OCA", "delOCA", "Other Current Assets"]),
   ("net_property, plant & equipment",
      "Основные средства (за вычетом накопленной амортизации)",
      ["delNetPropertyPlantEquipment", "NetPPE", "delNetPPE",
       "Net Property Plant Equipment", "net property plant equipment"]),
   ("other_non_current_assets", "Прочие внеборотные активы",
      ["delOtherNonCurrentAssets", "ONCA", "delONCA", "Other Non-Current Assets"]),
   ("depreciation_expence", "Амортизация",
      ["delDepreciationExpence", "DE", "delDE", "DepExp", "Depreciation Expence",
       "depreciation_expence"]),
   ("gain_loss_on_disposal_of_PPE",
      "Прибыль (убыток) от реализации объектов основных средств",
      ["delGainLossOnDisposalOfPPE", "GLODOPPE", "Gain(Loss)", "delGain(Loss)",
       "Gain Loss On Disposal Of PPE", "gain loss on disposal of ppe"])]

end FinancialCalculator

/-- A freshly constructed `FinancialCalculator()`: empty data store and the
registry built by `_initialize_registry`. -/
def initCalculator : FinancialCalculator :=
  FinancialCalculator.catalog.foldl (fun c e => c.reg e.1 e.2.1 e.2.2) ⟨[], [], []⟩

namespace FinancialCalculator

/-- `resolve_name` (lines 107-112): look up `name.lower().strip()` in the
alias map. -/
def resolve_name (c : FinancialCalculator) (name : Str) : Option Str :=
  dget c.alias_map (pyNormalize name)

/-- `set_value` (lines 114-123) run to either a normal return or a raised
exception: resolution failure (or a falsy empty id, per `if not canonical_id`)
raises before any mutation; success stores `float(value)` under the canonical
id. -/
def set_value (c : FinancialCalculator) (name : Str) (value : ℤ) :
    FinancialCalculator × Option CalcError :=
  match c.resolve_name name with
  | none => (c, some (.unknownIndicator name))
  | some id =>
      if id = [] then (c, some (.unknownIndicator name))
      else ({ c with data := dinsert c.data id value }, none)

/-- `get_value` (lines 125-133): `0.0` when the name does not resolve (or the
id is falsy), else the stored value with default `0.0`. -/
def get_value (c : FinancialCalculator) (name : Str) : ℤ :=
  match c.resolve_name name with
  | none => 0
  | some id => if id = [] then 0 else (dget c.data id).getD 0

/-- `calculate_operational_cf` (lines 136-152). -/
def calculate_operational_cf (c : FinancialCalculator) :
    FinancialCalculator × ℤ :=
  let ni := c.get_value (lc "net_income")
  let dep_exp := c.get_value (lc "depreciation_expence")
  let net_ar := c.get_value (lc "net_accounts_receivable")
  let inv := c.get_value (lc "inventory")
  let oca := c.get_value (lc "other_current_assets")
  let cl := c.get_value (lc "current_liabilities")
  let gain_loss := c.get_value (lc "gain_loss_on_disposal_of_PPE")
  let total := ni + dep_exp + net_ar - inv - oca + cl - gain_loss
  ({ c with data := dinsert c.data (lc "operation_cf") total }, total)

/-- `calculate_investing_cf` (lines 154-168). -/
def calculate_investing_cf (c : FinancialCalculator) :
    FinancialCalculator × ℤ :=
  let nppe := c.get_value (lc "net_property_plant_equipment")
  let gain_loss := c.get_value (lc "gain_loss_on_disposal_of_PPE")
  let dep_exp := c.get_value (lc "depreciation_expence")
  let onca := c.get_value (lc "other_non_current_assets")
  let oe := c.get_value (lc "other_equity")
  let total := -nppe + gain_loss + dep_exp - onca + oe
  ({ c with data := dinsert c.data (lc "investing_cf") total }, total)

/-- `calculate_financing_cf` (lines 170-183). -/
def calculate_financing_cf (c : FinancialCalculator) :
    FinancialCalculator × ℤ :=
  let ncl := c.get_value (lc "non_current_liabilities")
  let cc := c.get_value (lc "contributed_capital")
  let div := c.get_value (lc "dividends")
  let total := ncl + cc - div
  ({ c with data := dinsert c.data (lc "financing_cf") total }, total)

/-- `calculate_cash` (lines 185-197). -/
def calculate_cash (c : FinancialCalculator) : FinancialCalculator × ℤ :=
  let operation_cf := c.get_value (lc "operation_cf")
  let investing_cf := c.get_value (lc "investing_cf")
  let financing_cf := c.get_value (lc "financing_cf")
  let total := operation_cf + investing_cf + financing_cf
  ({ c with data := dinsert c.data (lc "cash") total }, total)

end FinancialCalculator

/-- All (name, canonical id) pairs registered at construction: for each
catalog entry, the id itself, the display name, and every alias are accepted
spellings for that entry's id. -/
def rawNames : List (Str × Str) :=
  (FinancialCalculator.catalog.map fun e =>
    (lc e.1, lc e.1) :: (lc e.2.1, lc e.1) :: e.2.2.map (fun a => (lc a, lc e.1))).flatten

/-- A calculator in the reachable region: the registry and alias map of a
fresh construction (immutable after `__init__`), with an arbitrary value
store. -/
def withData (d : Dict ℤ) : FinancialCalculator :=
  { initCalculator with data := d }

/-- The four reserved derived-total keys written by the `calculate_*`
methods. -/
def reservedKeys : List Str :=
  [lc "operation_cf", lc "investing_cf", lc "financing_cf", lc "cash"]

/-- Every key of the value store is a canonical id present in the registry
or one of the four reserved derived-total keys. -/
def GoodKeys (d : Dict ℤ) : Prop :=
  ∀ p ∈ d, (dget initCalculator.registry p.1).isSome = true ∨ p.1 ∈ reservedKeys

/-- `t` is obtained from `s` by changing letter case and/or adding
surrounding whitespace. -/
def caseWsVariant (t s : Str) : Prop :=
  ∃ w1 u w2, (∀ c ∈ w1, isPySpace c = true) ∧ (∀ c ∈ w2, isPySpace c = true) ∧
    pyLower u = pyLower s ∧ t = w1 ++ u ++ w2

section NormalizeLemmas

lemma pyLowerChar_of_space {c : Char} (h : isPySpace c = true) : pyLowerChar c = c := by
  simp only [isPySpace, Bool.or_eq_true, beq_iff_eq] at h
  rcases h with ((((h | h) | h) | h) | h) | h <;> subst h <;> decide

lemma isPySpace_pyLowerChar {c : Char} (h : isPySpace c = true) :
    isPySpace (pyLowerChar c) = true := by
  rw [pyLowerChar_of_space h]; exact h

lemma dropWhile_ws_append {w x : Str} (h : ∀ c ∈ w, isPySpace c = true) :
    (w ++ x).dropWhile isPySpace = x.dropWhile isPySpace := by
  induction w with
  | nil => simp
  | cons a w ih =>
      simp only [List.cons_append, List.dropWhile_cons,
        h a (List.mem_cons_self a w), if_true]
      exact ih fun c hc => h c (List.mem_cons_of_mem a hc)

lemma lstrip_ws_append {w x : Str} (h : ∀ c ∈ w, isPySpace c = true) :
    lstrip (w ++ x) = lstrip x :=
  dropWhile_ws_append h

lemma lstrip_all_ws {w : Str} (h : ∀ c ∈ w, isPySpace c = true) : lstrip w = [] := by
  have := lstrip_ws_append (x := []) h
  simpa [lstrip] using this

lemma rstrip_append_ws {x w : Str} (h : ∀ c ∈ w, isPySpace c = true) :
    rstrip (x ++ w) = rstrip x := by
  unfold rstrip
  rw [List.reverse_append, dropWhile_ws_append]
  intro c hc
  exact h c (List.mem_reverse.mp hc)

lemma lstrip_append (x w : Str) :
    lstrip (x ++ w) = if lstrip x = [] then lstrip w else lstrip x ++ w := by
  induction x with
  | nil => simp [lstrip]
  | cons a x ih =>
      by_cases ha : isPySpace a = true
      · simpa [lstrip, List.dropWhile_cons, ha] using ih
      · simp [lstrip, List.dropWhile_cons, ha]

lemma pyStrip_append_ws {x w : Str} (h : ∀ c ∈ w, isPySpace c = true) :
    pyStrip (x ++ w) = pyStrip x := by
  unfold pyStrip
  rw [lstrip_append]
  by_cases hx : lstrip x = []
  · rw [if_pos hx, hx, lstrip_all_ws h]
  · rw [if_neg hx, rstrip_append_ws h]

lemma pyStrip_ws_pad {w1 x w2 : Str} (h1 : ∀ c ∈ w1, isPySpace c = true)
    (h2 : ∀ c ∈ w2, isPySpace c = true) :
    pyStrip (w1 ++ x ++ w2) = pyStrip x := by
  have : pyStrip (w1 ++ (x ++ w2)) = pyStrip (x ++ w2) := by
    unfold pyStrip
    rw [lstrip_ws_append h1]
  rw [List.append_assoc, this, pyStrip_append_ws h2]

lemma all_ws_pyLower {w : Str} (h : ∀ c ∈ w, isPySpace c = true) :
    ∀ c ∈ pyLower w, isPySpace c = true := by
  intro c hc
  rcases List.mem_map.mp hc with ⟨a, ha, rfl⟩
  exact isPySpace_pyLowerChar (h a ha)

lemma pyNormalize_of_variant {t s : Str} (h : caseWsVariant t s) :
    pyNormalize t = pyNormalize s := by
  rcases h with ⟨w1, u, w2, hw1, hw2, hu, rfl⟩
  unfold pyNormalize
  have hmap : pyLower (w1 ++ u ++ w2) = pyLower w1 ++ pyLower u ++ pyLower w2 := by
    simp [pyLower]
  rw [hmap, pyStrip_ws_pad (all_ws_pyLower hw1) (all_ws_pyLower hw2), hu]

end NormalizeLemmas

section DictLemmas

lemma dget_dinsert_self {α : Type} (m : Dict α) (k : Str) (v : α) :
    dget (dinsert m k v) k = some v := by
  simp [dget, dinsert, List.find?_cons]

lemma mem_of_dget {α : Type} {m : Dict α} {k : Str} {v : α}
    (h : dget m k = some v) : (k, v) ∈ m := by
  unfold dget at h
  cases hf : m.find? (fun p => decide (p.1 = k)) with
  | none => rw [hf] at h; simp at h
  | some p =>
      rw [hf] at h
      have h2 : p.2 = v := by simpa using h
      have hp := List.find?_some hf
      have hk : p.1 = k := by simpa using hp
      have hm : p ∈ m := List.mem_of_find?_eq_some hf
      have : p = (k, v) := by
        cases p
        simp only at hk h2
        rw [hk, h2]
      rw [this] at hm
      exact hm

end DictLemmas

section RegistryFacts

/-- Every registered spelling (id, display name, or alias) resolves to the
owning indicator's canonical id; in particular no later registration
overwrites an earlier one. -/
lemma resolve_rawNames : ∀ p ∈ rawNames, initCalculator.resolve_name p.1 = some p.2 := by
  decide

/-- No canonical id is the empty string, so the `if not canonical_id` guard
never fires on a successful resolution from the catalog. -/
lemma rawNames_id_ne_nil : ∀ p ∈ rawNames, p.2 ≠ [] := by decide

/-- Every value of the alias map is a key of the registry. -/
lemma alias_map_registered :
    ∀ p ∈ initCalculator.alias_map, (dget initCalculator.registry p.2).isSome = true := by
  decide

lemma resolve_registered {n id : Str}
    (h : initCalculator.resolve_name n = some id) :
    (dget initCalculator.registry id).isSome = true :=
  alias_map_registered _ (mem_of_dget h)

lemma withData_resolve (d : Dict ℤ) (n : Str) :
    (withData d).resolve_name n = initCalculator.resolve_name n := rfl

end RegistryFacts

/-- Claim C6: for every indicator registered at construction and every
string that is its id, its display name or one of its aliases, every variant
of that string obtained by changing letter case and/or adding surrounding
whitespace resolves to the indicator's canonical id. -/
theorem C6_alias_resolution (nm id : Str) (hmem : (nm, id) ∈ rawNames)
    (t : Str) (hv : caseWsVariant t nm) :
    initCalculator.resolve_name t = some id := by
  have hn : pyNormalize t = pyNormalize nm := pyNormalize_of_variant hv
  have hr : initCalculator.resolve_name nm = some id := resolve_rawNames _ hmem
  unfold FinancialCalculator.resolve_name at hr ⊢
  rw [hn]
  exact hr

/-- Witness for C6 at a concrete input: the alias "OCF" of indicator
"OperationalCF", in mixed case with added surrounding whitespace. -/
theorem C6_alias_resolution_witness :
    initCalculator.resolve_name (lc "  ocF ") = some (lc "OperationalCF") :=
  C6_alias_resolution (lc "OCF") (lc "OperationalCF") (by decide) (lc "  ocF ")
    ⟨lc "  ", lc "ocF", lc " ", by decide, by decide, by decide, by decide⟩

/-- Claim C7: writing through any registered spelling of an indicator and
reading back through any other spelling of the same indicator returns the
written value exactly, from any starting value store. -/
theorem C7_round_trip (d : Dict ℤ) (a1 a2 id : Str) (v : ℤ)
    (h1 : (a1, id) ∈ rawNames) (h2 : (a2, id) ∈ rawNames) :
    ((withData d).set_value a1 v).2 = none ∧
    ((withData d).set_value a1 v).1.get_value a2 = v := by
  have r1 : (withData d).resolve_name a1 = some id :=
    (withData_resolve d a1).trans (resolve_rawNames _ h1)
  have hne : id ≠ [] := rawNames_id_ne_nil _ h1
  have hset : (withData d).set_value a1 v =
      ({ withData d with data := dinsert (withData d).data id v }, none) := by
    unfold FinancialCalculator.set_value
    rw [r1]
    simp [hne]
  refine ⟨by rw [hset], ?_⟩
  rw [hset]
  have r2 : ({ withData d with
      data := dinsert (withData d).data id v } : FinancialCalculator).resolve_name a2 =
      some id := resolve_rawNames _ h2
  unfold FinancialCalculator.get_value
  rw [r2]
  simp [hne, dget_dinsert_self]

/-- Witness for C7 at a concrete input: set via alias "NI", read via alias
"net income"; both belong to indicator "net_income". -/
theorem C7_round_trip_witness :
    ((withData []).set_value (lc "NI") 7).2 = none ∧
    ((withData []).set_value (lc "NI") 7).1.get_value (lc "net income") = 7 :=
  C7_round_trip [] (lc "NI") (lc "net income") (lc "net_income") 7
    (by decide) (by decide)

/-- Claim C8: get_value is total by construction (it returns a rational for
every name and store, with no error outcome in its type); it returns 0 both
when the name does not resolve and when it resolves to an id with no stored
value. -/
theorem C8_get_value_total (c : FinancialCalculator) (n : Str)
    (h : c.resolve_name n = none ∨
      ∃ id, c.resolve_name n = some id ∧ dget c.data id = none) :
    c.get_value n = 0 := by
  unfold FinancialCalculator.get_value
  rcases h with h | ⟨id, hr, hd⟩
  · rw [h]
  · rw [hr]
    by_cases hid : id = []
    · simp [hid]
    · simp [hid, hd]

/-- Witness for C8 at a concrete input: an unresolvable name on a fresh
calculator. -/
theorem C8_get_value_total_witness : initCalculator.get_value (lc "nope") = 0 :=
  C8_get_value_total initCalculator (lc "nope") (Or.inl (by decide))

/-- Claim C5: a name that does not resolve makes set_value fail with the
unknown-indicator error carrying the original name, while get_value on the
same name returns 0 without failing. -/
theorem C5_unknown_name_asymmetry (c : FinancialCalculator) (n : Str) (v : ℤ)
    (h : c.resolve_name n = none) :
    (c.set_value n v).2 = some (CalcError.unknownIndicator n) ∧
    c.get_value n = 0 := by
  constructor
  · unfold FinancialCalculator.set_value
    rw [h]
  · unfold FinancialCalculator.get_value
    rw [h]

/-- Witness for C5 at the spec's concrete input "not_a_real_name". -/
theorem C5_unknown_name_asymmetry_witness :
    (initCalculator.set_value (lc "not_a_real_name") 1).2 =
      some (CalcError.unknownIndicator (lc "not_a_real_name")) ∧
    initCalculator.get_value (lc "not_a_real_name") = 0 :=
  C5_unknown_name_asymmetry initCalculator (lc "not_a_real_name") 1 (by decide)

/-- Claim C10: on a name that does not resolve, set_value raises the
unknown-indicator error before any mutation, so the whole state (value store
included) is returned unchanged. -/
theorem C10_set_value_atomic (c : FinancialCalculator) (n : Str) (v : ℤ)
    (h : c.resolve_name n = none) :
    c.set_value n v = (c, some (CalcError.unknownIndicator n)) := by
  unfold FinancialCalculator.set_value
  rw [h]

/-- Witness for C10 at a concrete input: a fresh calculator and an
unresolvable name. -/
theorem C10_set_value_atomic_witness :
    initCalculator.set_value (lc "bogus") 1 =
      (initCalculator, some (CalcError.unknownIndicator (lc "bogus"))) :=
  C10_set_value_atomic initCalculator (lc "bogus") 1 (by decide)

/-- Claim C9: from any value store whose keys are all canonical registry ids
or reserved derived-total keys, each of set_value (with any name and value)
and the four calculate methods preserves that key discipline; no raw alias
string ever becomes a key. -/
theorem C9_key_invariant (d : Dict ℤ) (n : Str) (v : ℤ) (h : GoodKeys d) :
    GoodKeys ((withData d).set_value n v).1.data ∧
    GoodKeys ((withData d).calculate_operational_cf).1.data ∧
    GoodKeys ((withData d).calculate_investing_cf).1.data ∧
    GoodKeys ((withData d).calculate_financing_cf).1.data ∧
    GoodKeys ((withData d).calculate_cash).1.data := by
  have hcons : ∀ (k : Str) (q : ℤ),
      ((dget initCalculator.registry k).isSome = true ∨ k ∈ reservedKeys) →
      GoodKeys (dinsert d k q) := by
    intro k q hk p hp
    rcases List.mem_cons.mp hp with rfl | hp
    · exact hk
    · exact h p hp
  refine ⟨?_, ?_, ?_, ?_, ?_⟩
  · unfold FinancialCalculator.set_value
    cases hr : (withData d).resolve_name n with
    | none => exact h
    | some id =>
        by_cases hid : id = []
        · subst hid
          simpa [withData] using h
        · have hk := hcons id v
            (Or.inl (resolve_registered ((withData_resolve d n).symm.trans hr)))
          simpa [hid, withData] using hk
  · exact hcons _ _ (Or.inr (by decide))
  · exact hcons _ _ (Or.inr (by decide))
  · exact hcons _ _ (Or.inr (by decide))
  · exact hcons _ _ (Or.inr (by decide))

/-- Witness for C9 at a concrete input: the empty value store of a fresh
calculator, a sample name and value. -/
theorem C9_key_invariant_witness :
    GoodKeys ((withData []).set_value (lc "NI") 1).1.data ∧
    GoodKeys ((withData []).calculate_operational_cf).1.data ∧
    GoodKeys ((withData []).calculate_investing_cf).1.data ∧
    GoodKeys ((withData []).calculate_financing_cf).1.data ∧
    GoodKeys ((withData []).calculate_cash).1.data :=
  C9_key_invariant [] (lc "NI") 1 (fun p hp => absurd hp (List.not_mem_nil p))

/-- Claim C1's scenario: set net income to 100 via alias "NI" on a fresh
calculator, then run the three component calculations and finally the cash
calculation. -/
def c1AfterSet : FinancialCalculator := (initCalculator.set_value (lc "NI") 100).1

def c1Op : FinancialCalculator × ℤ := c1AfterSet.calculate_operational_cf

def c1Inv : FinancialCalculator × ℤ := c1Op.1.calculate_investing_cf

def c1Fin : FinancialCalculator × ℤ := c1Inv.1.calculate_financing_cf

def c1Cash : FinancialCalculator × ℤ := c1Fin.1.calculate_cash

/-- Claim C1, at the code's failing input: a fresh calculator returns 0 from
calculate_cash (the claim's first half); but after the three component
calculations returned 100, 0 and 0 and stored them, calculate_cash still
returns 0 rather than their sum 100, because the reserved keys written by the
component calculations ("operation_cf", "investing_cf", "financing_cf") do
not resolve through the alias map, so get_value never reads them back. -/
theorem C1_calculate_cash_bug :
    initCalculator.calculate_cash.2 = 0 ∧
    c1Op.2 = 100 ∧ c1Inv.2 = 0 ∧ c1Fin.2 = 0 ∧
    dget c1Op.1.data (lc "operation_cf") = some 100 ∧
    initCalculator.resolve_name (lc "operation_cf") = none ∧
    initCalculator.resolve_name (lc "investing_cf") = none ∧
    initCalculator.resolve_name (lc "financing_cf") = none ∧
    c1Cash.2 = 0 ∧ c1Cash.2 ≠ c1Op.2 + c1Inv.2 + c1Fin.2 := by
  decide

/-- Claim C2's scenario restricted to the six example inputs that resolve at
all: the catalog spells depreciation "depreciation_expence" and registers no
current-liabilities indicator. -/
def c2Setup : FinancialCalculator :=
  ((((((initCalculator.set_value (lc "net_income") 100).1.set_value
      (lc "depreciation_expence") 20).1.set_value
      (lc "net_accounts_receivable") 5).1.set_value
      (lc "inventory") 10).1.set_value
      (lc "other_current_assets") 3).1.set_value
      (lc "gain_loss_on_disposal_of_PPE") 2).1

/-- Claim C2, at the code's failing input: "current_liabilities" (and the
spec's spelling "depreciation_expense") cannot be resolved, so the example's
set_value call for it raises instead of storing 8; with the six storable
example inputs in place, calculate_operational_cf returns 110 (the
current-liabilities term is irrecoverably 0), not the 118 the claim
requires, and stores 110 under "operation_cf". -/
theorem C2_operational_cf_bug :
    initCalculator.resolve_name (lc "current_liabilities") = none ∧
    (c2Setup.set_value (lc "current_liabilities") 8).2 =
      some (CalcError.unknownIndicator (lc "current_liabilities")) ∧
    initCalculator.resolve_name (lc "depreciation_expense") = none ∧
    c2Setup.calculate_operational_cf.2 = 110 ∧
    c2Setup.calculate_operational_cf.2 ≠ 118 ∧
    dget c2Setup.calculate_operational_cf.1.data (lc "operation_cf") = some 110 := by
  decide

/-- Claim C3's scenario: store net PPE through its alias "NetPPE". -/
def c3Setup : FinancialCalculator := (initCalculator.set_value (lc "NetPPE") 5).1

/-- Claim C3, at the code's failing input: the name
"net_property_plant_equipment" that calculate_investing_cf reads does not
resolve (the canonical id is "net_property, plant & equipment"), so after
successfully storing net PPE = 5 the method returns 0 instead of the -5 the
claim's formula requires. -/
theorem C3_investing_cf_bug :
    initCalculator.resolve_name (lc "net_property_plant_equipment") = none ∧
    (initCalculator.set_value (lc "NetPPE") 5).2 = none ∧
    c3Setup.get_value (lc "NetPPE") = 5 ∧
    c3Setup.calculate_investing_cf.2 = 0 ∧
    c3Setup.calculate_investing_cf.2 ≠ -5 := by
  decide

/-- Claim C4's scenario: store non-current liabilities through the alias
"NCL". -/
def c4Setup : FinancialCalculator := (initCalculator.set_value (lc "NCL") 7).1

/-- Claim C4, at the code's failing input: the name "non_current_liabilities"
that calculate_financing_cf reads does not resolve (the canonical id is
"non-current liabilities"), so after successfully storing NCL = 7 the method
returns 0 instead of the 7 the claim's formula requires. -/
theorem C4_financing_cf_bug :
    initCalculator.resolve_name (lc "non_current_liabilities") = none ∧
    (initCalculator.set_value (lc "NCL") 7).2 = none ∧
    c4Setup.get_value (lc "NCL") = 7 ∧
    c4Setup.calculate_financing_cf.2 = 0 ∧
    c4Setup.calculate_financing_cf.2 ≠ 7 := by
  decide
